import Mathlib

/-!
Verification of the ICMP Echo Request/Reply core (src/ICMP/icmp.cpp).

The C++ core is embedded shallowly at the byte level:

* byte buffers are `List Nat` with each element a byte value (< 256);
* a 16-bit word read from two consecutive buffer bytes and corrected with
  `ntohs` has the numeric value `hi * 256 + lo`, independently of host
  endianness (on a little-endian host the in-memory `uint16_t` is `lo*256+hi`
  and `ntohs` swaps it; on a big-endian host it is already `hi*256+lo` and
  `ntohs` is the identity);
* the `uint32_t` accumulator of the checksum loop wraps modulo `2^32`, which
  the embedding performs explicitly;
* `icmp_checksum` returns the host-order 16-bit value whose network-order
  (big-endian) byte encoding `[c / 256, c % 256]` is what `htons` + `memcpy`
  store into the packet at offsets 2-3;
* `struct icmphdr` is the 8 header bytes `type, code, checksum(2), id(2),
  seq(2)`, kept as individual byte fields;
* the I/O performed by `send_ping` (sendto, select, recvfrom, clock reads)
  is summarized by a `PingEnv` record holding the outcome of each call, and
  `send_ping` mirrors the C control flow over those outcomes.  The C `double`
  field `rtt_ms` is modelled as `Rat`; every claim under study only touches
  its exact zero-initialized value on failure paths.
-/

namespace Icmp

/-- One step of the carry-fold loop body: `sum = (sum & 0xFFFF) + (sum >> 16)`,
iterated by `while (sum >> 16)`.  For a `uint32` argument,
`sum & 0xFFFF = sum % 65536` and `sum >> 16 = sum / 65536`. -/
def fold16 (s : Nat) : Nat :=
  if s < 65536 then s else fold16 (s % 65536 + s / 65536)
termination_by s
decreasing_by
  simp only [not_lt] at *
  omega

/-- The 16-bit words the checksum loop reads: consecutive byte pairs as
big-endian (`ntohs`-corrected) values; a trailing odd byte is padded as the
high byte of a final word (`bytes[length-1] << 8`). -/
def toWords : List Nat → List Nat
  | [] => []
  | [b] => [b * 256]
  | b1 :: b2 :: rest => (b1 * 256 + b2) :: toWords rest

/-- The running `uint32_t sum` after the two summation loops of
`icmp_checksum`: each `sum +=` wraps modulo `2^32`. -/
def icmp_sum (data : List Nat) : Nat :=
  (toWords data).foldl (fun s w => (s + w) % 4294967296) 0

/-- Embedding of `icmp_checksum` (src/ICMP/icmp.cpp lines 38-59): sum the
16-bit words, fold the carries, and return the one's complement of the final
16-bit sum.  `static_cast<uint16_t>(~sum)` on a folded sum `< 65536` is
`65535 - sum`.  The value returned here is the host-order checksum; the
network-order bytes stored into a packet are `c / 256` then `c % 256`. -/
def icmp_checksum (data : List Nat) : Nat :=
  65535 - fold16 (icmp_sum data)

/-- Writing a 16-bit checksum value into a packet at byte offsets 2-3 in
network byte order, as `memcpy(packet.data() + 2, &checksum, 2)` does with
the `htons`-encoded value. -/
def set_checksum_bytes (packet : List Nat) (c : Nat) : List Nat :=
  (packet.set 2 (c / 256)).set 3 (c % 256)

/-- Embedding of `create_icmp_echo_request` (lines 62-87): an 8-byte header
`type=8, code=0, checksum=0, id, seq` (id and seq stored big-endian by
`htons`) followed by the payload, then the checksum of the whole buffer
written into bytes 2-3. -/
def create_icmp_echo_request (identifier sequence : Nat) (payload : List Nat) :
    List Nat :=
  let packet : List Nat :=
    [8, 0, 0, 0, identifier / 256, identifier % 256,
     sequence / 256, sequence % 256] ++ payload
  set_checksum_bytes packet (icmp_checksum packet)

/-- Embedding of `get_ip_header_length` (lines 90-94):
`(ip_packet[0] & 0x0F) * 4`. -/
def get_ip_header_length (ip_packet : List Nat) : Nat :=
  (ip_packet.headD 0 &&& 15) * 4

/-- The 8 bytes of `struct icmphdr` as laid out on the wire:
`type(1), code(1), checksum(2), echo.id(2), echo.sequence(2)`. -/
structure IcmpHeader where
  type_ : Nat
  code : Nat
  checksum_b2 : Nat
  checksum_b3 : Nat
  id_b4 : Nat
  id_b5 : Nat
  seq_b6 : Nat
  seq_b7 : Nat

/-- Embedding of `validate_icmp_response` (lines 97-106): reject unless
`type == ICMP_ECHOREPLY (0)` and `code == 0`, then compare the
`ntohs`-corrected identifier and sequence against the expected values. -/
def validate_icmp_response (hdr : IcmpHeader) (expected_id expected_seq : Nat) :
    Bool :=
  if hdr.type_ != 0 || hdr.code != 0 then false
  else (hdr.id_b4 * 256 + hdr.id_b5 == expected_id) &&
       (hdr.seq_b6 * 256 + hdr.seq_b7 == expected_seq)

/-- Reading `struct icmphdr` fields from a received buffer at a byte offset,
as `reinterpret_cast<struct icmphdr*>(buffer + ip_header_len)` does. -/
def header_at (buf : List Nat) (off : Nat) : IcmpHeader :=
  { type_ := buf.getD off 0
    code := buf.getD (off + 1) 0
    checksum_b2 := buf.getD (off + 2) 0
    checksum_b3 := buf.getD (off + 3) 0
    id_b4 := buf.getD (off + 4) 0
    id_b5 := buf.getD (off + 5) 0
    seq_b6 := buf.getD (off + 6) 0
    seq_b7 := buf.getD (off + 7) 0 }

/-- Mirror of `struct PingResult` (lines 27-35).  The `double rtt_ms` is a
`Rat`; `int` fields are `Int`; the `uint16_t` fields are `Nat`. -/
structure PingResult where
  success : Bool
  rtt_ms : Rat
  from_addr : String
  bytes_received : Int
  ttl : Int
  sequence : Nat
  identifier : Nat

/-- Outcomes of the system calls made by one `send_ping` invocation:
the return values of `sendto`, `select` and `recvfrom`, the bytes the kernel
wrote into `buffer`, the peer address formatted by `inet_ntop`, and the two
`steady_clock` readings in microseconds. -/
structure PingEnv where
  sent : Int
  ready : Int
  received : Int
  buffer : List Nat
  from_addr : String
  send_us : Nat
  recv_us : Nat

/-- The value of `PingResult result{}` after lines 111-113: zero-initialized
except for the caller-supplied sequence and identifier. -/
def init_result (identifier sequence : Nat) : PingResult :=
  { success := false
    rtt_ms := 0
    from_addr := ""
    bytes_received := 0
    ttl := 0
    sequence := sequence
    identifier := identifier }

/-- Embedding of `send_ping` (lines 109-191) over the syscall outcomes in
`env`.  Each early `return result` of the C code is a branch returning
`init_result`; the final branch fills in the success fields:
`rtt_ms = microseconds / 1000`, `bytes_received = received - ip_header_len -
sizeof(icmphdr)`, `ttl = buffer[8]`. -/
def send_ping (env : PingEnv) (identifier sequence : Nat) : PingResult :=
  let result := init_result identifier sequence
  if env.sent ≤ 0 then result
  else if env.ready ≤ 0 then result
  else if env.received ≤ 0 then result
  else
    let ip_header_len := get_ip_header_length env.buffer
    if env.received < (ip_header_len : Int) + 8 then result
    else if !(validate_icmp_response (header_at env.buffer ip_header_len)
                identifier sequence) then result
    else
      { success := true
        rtt_ms := (((env.recv_us : Int) - (env.send_us : Int) : Int) : Rat) / 1000
        from_addr := env.from_addr
        bytes_received := env.received - (ip_header_len : Int) - 8
        ttl := (env.buffer.getD 8 0 : Int)
        sequence := sequence
        identifier := identifier }

/-- Number of `recvfrom` calls one `send_ping` invocation performs: the single
`recvfrom` at line 152 runs exactly when the send succeeded and `select`
reported readiness; there is no loop around it. -/
def recv_count (env : PingEnv) : Nat :=
  if env.sent ≤ 0 then 0
  else if env.ready ≤ 0 then 0
  else 1

/-! ## Basic facts about the carry fold -/

theorem fold16_of_lt {s : Nat} (h : s < 65536) : fold16 s = s := by
  unfold fold16
  simp [h]

theorem fold16_of_ge {s : Nat} (h : 65536 ≤ s) :
    fold16 s = fold16 (s % 65536 + s / 65536) := by
  conv_lhs => unfold fold16
  simp [Nat.not_lt.mpr h]

theorem fold16_lt (s : Nat) : fold16 s < 65536 := by
  induction s using Nat.strong_induction_on with
  | _ s ih =>
    by_cases h : s < 65536
    · rw [fold16_of_lt h]; exact h
    · rw [fold16_of_ge (Nat.not_lt.mp h)]
      exact ih _ (by omega)

theorem fold16_mod (s : Nat) : fold16 s % 65535 = s % 65535 := by
  induction s using Nat.strong_induction_on with
  | _ s ih =>
    by_cases h : s < 65536
    · rw [fold16_of_lt h]
    · rw [fold16_of_ge (Nat.not_lt.mp h)]
      rw [ih _ (by omega)]
      omega

theorem fold16_pos {s : Nat} (h : 0 < s) : 0 < fold16 s := by
  induction s using Nat.strong_induction_on with
  | _ s ih =>
    by_cases hlt : s < 65536
    · rw [fold16_of_lt hlt]; exact h
    · rw [fold16_of_ge (Nat.not_lt.mp hlt)]
      exact ih _ (by omega) (by omega)

/-- A positive multiple of 65535 folds to exactly 65535 (the all-ones word). -/
theorem fold16_eq_ffff {s : Nat} (h0 : 0 < s) (hm : s % 65535 = 0) :
    fold16 s = 65535 := by
  have h1 := fold16_lt s
  have h2 := fold16_mod s
  have h3 := fold16_pos h0
  omega

/-! ## The wrapped word sum -/

theorem foldl_add_mod (L : List Nat) (a : Nat) (ha : a < 4294967296) :
    L.foldl (fun s w => (s + w) % 4294967296) a = (a + L.sum) % 4294967296 := by
  induction L generalizing a with
  | nil => simpa using (Nat.mod_eq_of_lt ha).symm
  | cons w L ih =>
    simp only [List.foldl_cons, List.sum_cons]
    rw [ih _ (Nat.mod_lt _ (by omega))]
    rw [Nat.mod_add_mod]
    ring_nf

theorem icmp_sum_eq_sum_mod (data : List Nat) :
    icmp_sum data = (toWords data).sum % 4294967296 := by
  unfold icmp_sum
  simpa using foldl_add_mod (toWords data) 0 (by omega)

theorem icmp_sum_lt (data : List Nat) : icmp_sum data < 4294967296 := by
  rw [icmp_sum_eq_sum_mod]
  exact Nat.mod_lt _ (by omega)

/-- Core one's-complement fact: adding the computed checksum back into the
wrapped accumulator never overflows the `uint32`, stays positive, and lands
on a multiple of 65535. -/
theorem checksum_rebalance (s : Nat) (h : s < 4294967296) :
    s + (65535 - fold16 s) < 4294967296 ∧
    (s + (65535 - fold16 s)) % 65535 = 0 ∧
    0 < s + (65535 - fold16 s) := by
  have h1 := fold16_lt s
  have h2 := fold16_mod s
  rcases Nat.eq_zero_or_pos s with h0 | h0
  · subst h0
    rw [fold16_of_lt (by omega)]
    omega
  · have h3 := fold16_pos h0
    omega

/-! ## Claim C1: checksum self-verification -/

/-- C1.  For every byte buffer B of length at least 4, if c is
icmp_checksum of B with its checksum bytes (offsets 2-3) zeroed, then
icmp_checksum of B with bytes 2-3 replaced by the network-order encoding of c
yields 0 — the Internet checksum self-verification law, for buffers of any
length including odd lengths. -/
theorem icmp_checksum_self_verification (B : List Nat) (h : 4 ≤ B.length) :
    icmp_checksum (set_checksum_bytes B
      (icmp_checksum (set_checksum_bytes B 0))) = 0 := by
  rcases B with _ | ⟨b0, _ | ⟨b1, _ | ⟨b2, _ | ⟨b3, rest⟩⟩⟩⟩
  · simp at h
  · simp at h
  · simp at h
  · simp at h
  · have hz : set_checksum_bytes (b0 :: b1 :: b2 :: b3 :: rest) 0
        = b0 :: b1 :: 0 :: 0 :: rest := rfl
    set c := icmp_checksum (set_checksum_bytes (b0 :: b1 :: b2 :: b3 :: rest) 0)
      with hc
    have hsetc : set_checksum_bytes (b0 :: b1 :: b2 :: b3 :: rest) c
        = b0 :: b1 :: (c / 256) :: (c % 256) :: rest := rfl
    rw [hsetc]
    have hw0 : (toWords (b0 :: b1 :: 0 :: 0 :: rest)).sum
        = b0 * 256 + b1 + (toWords rest).sum := by
      simp [toWords]
    have hwc : (toWords (b0 :: b1 :: (c / 256) :: (c % 256) :: rest)).sum
        = b0 * 256 + b1 + (toWords rest).sum + c := by
      simp [toWords]
      omega
    have hcdef : c = 65535 - fold16 (icmp_sum (b0 :: b1 :: 0 :: 0 :: rest)) := by
      rw [hc, hz]; rfl
    obtain ⟨hlt, hmod, hpos⟩ :=
      checksum_rebalance (icmp_sum (b0 :: b1 :: 0 :: 0 :: rest)) (icmp_sum_lt _)
    have hlt' : icmp_sum (b0 :: b1 :: 0 :: 0 :: rest) + c < 4294967296 := by
      rw [hcdef]; exact hlt
    have hmod' : (icmp_sum (b0 :: b1 :: 0 :: 0 :: rest) + c) % 65535 = 0 := by
      rw [hcdef]; exact hmod
    have hpos' : 0 < icmp_sum (b0 :: b1 :: 0 :: 0 :: rest) + c := by
      rw [hcdef]; exact hpos
    have hS0 : icmp_sum (b0 :: b1 :: 0 :: 0 :: rest)
        = (b0 * 256 + b1 + (toWords rest).sum) % 4294967296 := by
      rw [icmp_sum_eq_sum_mod, hw0]
    unfold icmp_checksum
    rw [icmp_sum_eq_sum_mod, hwc]
    have hmerge : (b0 * 256 + b1 + (toWords rest).sum + c) % 4294967296
        = (icmp_sum (b0 :: b1 :: 0 :: 0 :: rest) + c) % 4294967296 := by
      rw [hS0, Nat.mod_add_mod]
    rw [hmerge, Nat.mod_eq_of_lt hlt', fold16_eq_ffff hpos' hmod']

/-- Witness for C1 at the concrete 8-byte buffer [8,0,0,0,4,210,0,1]. -/
theorem icmp_checksum_self_verification_witness :
    4 ≤ ([8, 0, 0, 0, 4, 210, 0, 1] : List Nat).length ∧
    icmp_checksum (set_checksum_bytes [8, 0, 0, 0, 4, 210, 0, 1]
      (icmp_checksum (set_checksum_bytes [8, 0, 0, 0, 4, 210, 0, 1] 0))) = 0 :=
  ⟨by decide, icmp_checksum_self_verification _ (by decide)⟩

/-! ## Claim C7: checksum of the empty buffer -/

/-- C7.  icmp_checksum applied to the empty buffer is total (a plain Lean
function, no error case) and returns the one's complement of 0, namely
0xFFFF = 65535. -/
theorem icmp_checksum_nil : icmp_checksum ([] : List Nat) = 65535 := by
  unfold icmp_checksum
  rw [show icmp_sum ([] : List Nat) = 0 from rfl, fold16_of_lt (by omega)]

/-! ## Claim C6: IP header length extraction -/

/-- C6.  For every non-empty buffer, get_ip_header_length returns 4 times the
low nibble of the first byte; in particular a first byte of 0x45 = 69 yields
20. -/
theorem get_ip_header_length_spec (b : Nat) (rest : List Nat) :
    get_ip_header_length (b :: rest) = 4 * (b % 16) ∧
    get_ip_header_length (69 :: rest) = 20 := by
  constructor
  · show (b &&& 15) * 4 = 4 * (b % 16)
    have h : (15 : Nat) = 2 ^ 4 - 1 := rfl
    rw [h, Nat.and_pow_two_sub_one_eq_mod]
    ring
  · show ((69 : Nat) &&& 15) * 4 = 20
    decide

/-! ## Claim C3: reply validation characterization -/

theorem validate_true_iff (hdr : IcmpHeader) (eid eseq : Nat) :
    validate_icmp_response hdr eid eseq = true ↔
      hdr.type_ = 0 ∧ hdr.code = 0 ∧ hdr.id_b4 * 256 + hdr.id_b5 = eid ∧
      hdr.seq_b6 * 256 + hdr.seq_b7 = eseq := by
  by_cases h1 : hdr.type_ = 0 <;> by_cases h2 : hdr.code = 0 <;>
    simp [validate_icmp_response, h1, h2]

/-- C3.  validate_icmp_response returns true iff type = 0 (Echo Reply), code
= 0, and the byte-order-corrected identifier and sequence equal the expected
values; and in an otherwise-matching header, changing the type to a nonzero
value, the code to a nonzero value, the identifier to a different value, or
the sequence to a different value flips the result to false. -/
theorem validate_icmp_response_spec (hdr : IcmpHeader) (eid eseq : Nat) :
    (validate_icmp_response hdr eid eseq = true ↔
      hdr.type_ = 0 ∧ hdr.code = 0 ∧ hdr.id_b4 * 256 + hdr.id_b5 = eid ∧
      hdr.seq_b6 * 256 + hdr.seq_b7 = eseq) ∧
    (validate_icmp_response hdr eid eseq = true →
      (∀ t, t ≠ 0 →
        validate_icmp_response { hdr with type_ := t } eid eseq = false) ∧
      (∀ cd, cd ≠ 0 →
        validate_icmp_response { hdr with code := cd } eid eseq = false) ∧
      (∀ x y, x * 256 + y ≠ eid →
        validate_icmp_response { hdr with id_b4 := x, id_b5 := y } eid eseq
          = false) ∧
      (∀ x y, x * 256 + y ≠ eseq →
        validate_icmp_response { hdr with seq_b6 := x, seq_b7 := y } eid eseq
          = false)) := by
  refine ⟨validate_true_iff hdr eid eseq, fun _ => ⟨?_, ?_, ?_, ?_⟩⟩
  · intro t ht
    cases hb : validate_icmp_response { hdr with type_ := t } eid eseq with
    | false => rfl
    | true => exact absurd ((validate_true_iff _ _ _).mp hb).1 ht
  · intro cd hcd
    cases hb : validate_icmp_response { hdr with code := cd } eid eseq with
    | false => rfl
    | true => exact absurd ((validate_true_iff _ _ _).mp hb).2.1 hcd
  · intro x y hxy
    cases hb : validate_icmp_response { hdr with id_b4 := x, id_b5 := y }
        eid eseq with
    | false => rfl
    | true => exact absurd ((validate_true_iff _ _ _).mp hb).2.2.1 hxy
  · intro x y hxy
    cases hb : validate_icmp_response { hdr with seq_b6 := x, seq_b7 := y }
        eid eseq with
    | false => rfl
    | true => exact absurd ((validate_true_iff _ _ _).mp hb).2.2.2 hxy

/-- Witness for C3: the crafted header with type 0, code 0, identifier 1234
(bytes 4, 210) and sequence 1 validates against expected (1234, 1), and
flipping the type to 8 makes validation fail. -/
theorem validate_icmp_response_spec_witness :
    validate_icmp_response ⟨0, 0, 0, 0, 4, 210, 0, 1⟩ 1234 1 = true ∧
    validate_icmp_response ⟨8, 0, 0, 0, 4, 210, 0, 1⟩ 1234 1 = false := by
  have hv : validate_icmp_response ⟨0, 0, 0, 0, 4, 210, 0, 1⟩ 1234 1 = true :=
    (validate_icmp_response_spec ⟨0, 0, 0, 0, 4, 210, 0, 1⟩ 1234 1).1.mpr
      (by refine ⟨rfl, rfl, by decide, by decide⟩)
  exact ⟨hv,
    ((validate_icmp_response_spec ⟨0, 0, 0, 0, 4, 210, 0, 1⟩ 1234 1).2 hv).1
      8 (by decide)⟩

/-! ## Claim C5: the reply checksum is never inspected -/

/-- C5.  For every pair of inbound ICMP headers that differ only in the
checksum field (bytes 2-3), validate_icmp_response returns the same result
against any expected identifier and sequence. -/
theorem validate_ignores_checksum (hdr : IcmpHeader)
    (eid eseq b2 b3 b2' b3' : Nat) :
    validate_icmp_response { hdr with checksum_b2 := b2, checksum_b3 := b3 }
      eid eseq =
    validate_icmp_response { hdr with checksum_b2 := b2', checksum_b3 := b3' }
      eid eseq := rfl

/-! ## Claim C4: echo request wire format and round trip -/

/-- C4.  create_icmp_echo_request returns a buffer of length 8 plus the
payload length whose byte 0 is 8 (Echo Request), byte 1 is 0, bytes 4-5 hold
the identifier in network byte order, bytes 6-7 hold the sequence in network
byte order, and bytes 8 onward are the payload verbatim; reinterpreting
bytes 4-5 and 6-7 with byte-order correction returns exactly the input
identifier and sequence. -/
theorem create_icmp_echo_request_spec (identifier sequence : Nat)
    (payload : List Nat) (_hid : identifier < 65536) (_hseq : sequence < 65536) :
    (create_icmp_echo_request identifier sequence payload).length
      = 8 + payload.length ∧
    (create_icmp_echo_request identifier sequence payload).getD 0 0 = 8 ∧
    (create_icmp_echo_request identifier sequence payload).getD 1 0 = 0 ∧
    (create_icmp_echo_request identifier sequence payload).getD 4 0
      = identifier / 256 ∧
    (create_icmp_echo_request identifier sequence payload).getD 5 0
      = identifier % 256 ∧
    (create_icmp_echo_request identifier sequence payload).getD 6 0
      = sequence / 256 ∧
    (create_icmp_echo_request identifier sequence payload).getD 7 0
      = sequence % 256 ∧
    (create_icmp_echo_request identifier sequence payload).drop 8 = payload ∧
    (create_icmp_echo_request identifier sequence payload).getD 4 0 * 256 +
      (create_icmp_echo_request identifier sequence payload).getD 5 0
      = identifier ∧
    (create_icmp_echo_request identifier sequence payload).getD 6 0 * 256 +
      (create_icmp_echo_request identifier sequence payload).getD 7 0
      = sequence := by
  have hform : create_icmp_echo_request identifier sequence payload
      = 8 :: 0 ::
        (icmp_checksum ([8, 0, 0, 0, identifier / 256, identifier % 256,
          sequence / 256, sequence % 256] ++ payload) / 256) ::
        (icmp_checksum ([8, 0, 0, 0, identifier / 256, identifier % 256,
          sequence / 256, sequence % 256] ++ payload) % 256) ::
        (identifier / 256) :: (identifier % 256) ::
        (sequence / 256) :: (sequence % 256) :: payload := rfl
  refine ⟨?_, rfl, rfl, rfl, rfl, rfl, rfl, rfl, ?_, ?_⟩
  · rw [hform]
    simp only [List.length_cons]
    omega
  · show identifier / 256 * 256 + identifier % 256 = identifier
    omega
  · show sequence / 256 * 256 + sequence % 256 = sequence
    omega

/-- Byte content of the payload string PING_PAYLOAD_1 that send_ping builds
for sequence number 1. -/
def ping_payload_1 : List Nat :=
  [80, 73, 78, 71, 95, 80, 65, 89, 76, 79, 65, 68, 95, 49]

/-- Witness for C4 at identifier 1234, sequence 1, payload PING_PAYLOAD_1. -/
theorem create_icmp_echo_request_spec_witness :
    1234 < 65536 ∧ 1 < 65536 ∧
    ((create_icmp_echo_request 1234 1 ping_payload_1).length
      = 8 + ping_payload_1.length ∧
    (create_icmp_echo_request 1234 1 ping_payload_1).getD 0 0 = 8 ∧
    (create_icmp_echo_request 1234 1 ping_payload_1).getD 1 0 = 0 ∧
    (create_icmp_echo_request 1234 1 ping_payload_1).getD 4 0 = 1234 / 256 ∧
    (create_icmp_echo_request 1234 1 ping_payload_1).getD 5 0 = 1234 % 256 ∧
    (create_icmp_echo_request 1234 1 ping_payload_1).getD 6 0 = 1 / 256 ∧
    (create_icmp_echo_request 1234 1 ping_payload_1).getD 7 0 = 1 % 256 ∧
    (create_icmp_echo_request 1234 1 ping_payload_1).drop 8 = ping_payload_1 ∧
    (create_icmp_echo_request 1234 1 ping_payload_1).getD 4 0 * 256 +
      (create_icmp_echo_request 1234 1 ping_payload_1).getD 5 0 = 1234 ∧
    (create_icmp_echo_request 1234 1 ping_payload_1).getD 6 0 * 256 +
      (create_icmp_echo_request 1234 1 ping_payload_1).getD 7 0 = 1) :=
  ⟨by decide, by decide,
    create_icmp_echo_request_spec 1234 1 ping_payload_1 (by decide) (by decide)⟩

/-! ## Claim C2: failure paths and the returned result -/

/-- Environment in which the very first step fails: sendto returns 0. -/
def fail_env : PingEnv :=
  { sent := 0, ready := 0, received := 0, buffer := [], from_addr := ""
    send_us := 0, recv_us := 0 }

/-- Counterexample to C2 as stated: on the send-failure path with
caller-supplied identifier 7 and sequence 1, the returned result has
success = false but sequence = 1 and identifier = 7, not 0 — lines 112-113
set both fields before any failure path can return. -/
theorem send_ping_failure_fields_counterexample :
    (send_ping fail_env 7 1).success = false ∧
    (send_ping fail_env 7 1).sequence = 1 ∧
    (send_ping fail_env 7 1).identifier = 7 ∧
    ¬ ((send_ping fail_env 7 1).sequence = 0 ∧
       (send_ping fail_env 7 1).identifier = 0) := by
  refine ⟨rfl, rfl, rfl, ?_⟩
  intro h
  exact absurd h.1 (by decide)

/-- C2 amended.  Every call to send_ping that takes any failure path (send
failure, timeout, wait-mechanism error, receive failure, truncated datagram,
or validation mismatch) returns a PingResult with success = false, rtt_ms =
0, empty source address, bytes_received = 0 and ttl = 0, while sequence and
identifier hold the caller-supplied arguments (set at lines 112-113 before
any failure can return). -/
theorem send_ping_failure_fields (env : PingEnv) (identifier sequence : Nat)
    (h : (send_ping env identifier sequence).success = false) :
    send_ping env identifier sequence
      = { success := false, rtt_ms := 0, from_addr := "", bytes_received := 0
          ttl := 0, sequence := sequence, identifier := identifier } := by
  simp only [send_ping] at h ⊢
  split_ifs at h ⊢ with h1 h2 h3 h4 h5
  all_goals rfl

/-- Witness for C2 amended on the send-failure environment. -/
theorem send_ping_failure_fields_witness :
    (send_ping fail_env 7 1).success = false ∧
    send_ping fail_env 7 1
      = { success := false, rtt_ms := 0, from_addr := "", bytes_received := 0
          ttl := 0, sequence := 1, identifier := 7 } :=
  ⟨by decide, send_ping_failure_fields fail_env 7 1 (by decide)⟩

/-! ## Claim C8: a validation mismatch is terminal -/

/-- C8.  In every invocation of send_ping in which the single received
datagram fails validation, the call returns the empty failure result
(success = false) and exactly one receive was performed: the non-matching
candidate is never re-examined and no second receive is attempted. -/
theorem send_ping_validation_mismatch (env : PingEnv)
    (identifier sequence : Nat)
    (hsent : 0 < env.sent) (hready : 0 < env.ready) (hrecv : 0 < env.received)
    (hlen : (get_ip_header_length env.buffer : Int) + 8 ≤ env.received)
    (hval : validate_icmp_response
        (header_at env.buffer (get_ip_header_length env.buffer))
        identifier sequence = false) :
    send_ping env identifier sequence = init_result identifier sequence ∧
    (send_ping env identifier sequence).success = false ∧
    recv_count env = 1 := by
  have hmain : send_ping env identifier sequence
      = init_result identifier sequence := by
    simp only [send_ping]
    rw [if_neg (by omega), if_neg (by omega), if_neg (by omega),
      if_neg (not_lt.mpr hlen), hval]
    simp
  refine ⟨hmain, by rw [hmain]; rfl, ?_⟩
  unfold recv_count
  rw [if_neg (by omega), if_neg (by omega)]

/-- Environment delivering a well-formed datagram whose ICMP header is an
Echo Request (type 8) rather than a Reply, so validation fails. -/
def mismatch_env : PingEnv :=
  { sent := 42, ready := 1, received := 28,
    buffer := [69, 0, 0, 0, 0, 0, 0, 0, 64, 0, 0, 0, 0, 0, 0, 0, 0, 0, 0, 0,
               8, 0, 0, 0, 3, 9, 0, 5],
    from_addr := "8.8.8.8", send_us := 2000, recv_us := 5000 }

/-- Witness for C8 on a concrete mismatching reply (expected id 777, seq 5;
reply has type 8). -/
theorem send_ping_validation_mismatch_witness :
    (0 < mismatch_env.sent ∧ 0 < mismatch_env.ready ∧
     0 < mismatch_env.received ∧
     (get_ip_header_length mismatch_env.buffer : Int) + 8
       ≤ mismatch_env.received ∧
     validate_icmp_response
       (header_at mismatch_env.buffer
         (get_ip_header_length mismatch_env.buffer)) 777 5 = false) ∧
    (send_ping mismatch_env 777 5 = init_result 777 5 ∧
     (send_ping mismatch_env 777 5).success = false ∧
     recv_count mismatch_env = 1) :=
  ⟨⟨by decide, by decide, by decide, by decide, by decide⟩,
    send_ping_validation_mismatch mismatch_env 777 5 (by decide) (by decide)
      (by decide) (by decide) (by decide)⟩

/-! ## Claim C10: invariants of a successful result -/

theorem getD_lt_of_all_lt (l : List Nat) (i : Nat)
    (hb : ∀ b ∈ l, b < 256) : l.getD i 0 < 256 := by
  induction l generalizing i with
  | nil => show (0 : Nat) < 256; omega
  | cons a l ih =>
    cases i with
    | zero => exact hb a (List.mem_cons_self a l)
    | succ n =>
      show l.getD n 0 < 256
      exact ih n (fun b hbl => hb b (List.mem_cons_of_mem a hbl))

/-- C10.  Every send_ping invocation returning success = true yields
bytes_received = total received - IP header length - 8, which is
nonnegative thanks to the truncation guard; a TTL within byte range
[0, 255]; and sequence and identifier equal to the caller-supplied
arguments. -/
theorem send_ping_success_invariants (env : PingEnv)
    (identifier sequence : Nat)
    (hb : ∀ b ∈ env.buffer, b < 256)
    (hs : (send_ping env identifier sequence).success = true) :
    (send_ping env identifier sequence).bytes_received
      = env.received - (get_ip_header_length env.buffer : Int) - 8 ∧
    0 ≤ (send_ping env identifier sequence).bytes_received ∧
    0 ≤ (send_ping env identifier sequence).ttl ∧
    (send_ping env identifier sequence).ttl ≤ 255 ∧
    (send_ping env identifier sequence).sequence = sequence ∧
    (send_ping env identifier sequence).identifier = identifier := by
  simp only [send_ping] at hs ⊢
  split_ifs at hs ⊢ with h1 h2 h3 h4 h5
  · simp [init_result] at hs
  · simp [init_result] at hs
  · simp [init_result] at hs
  · simp [init_result] at hs
  · simp [init_result] at hs
  · refine ⟨rfl, ?_, ?_, ?_, rfl, rfl⟩
    · show (0 : Int) ≤ env.received - (get_ip_header_length env.buffer : Int) - 8
      omega
    · show (0 : Int) ≤ (env.buffer.getD 8 0 : Int)
      omega
    · show ((env.buffer.getD 8 0 : Nat) : Int) ≤ 255
      have := getD_lt_of_all_lt env.buffer 8 hb
      omega

/-- Environment delivering a valid Echo Reply for identifier 777, sequence 5:
20-byte IP header with TTL 64 at offset 8, then a matching ICMP header. -/
def success_env : PingEnv :=
  { sent := 42, ready := 1, received := 28,
    buffer := [69, 0, 0, 0, 0, 0, 0, 0, 64, 0, 0, 0, 0, 0, 0, 0, 0, 0, 0, 0,
               0, 0, 0, 0, 3, 9, 0, 5],
    from_addr := "8.8.8.8", send_us := 2000, recv_us := 5000 }

/-- Witness for C10 on a concrete successful exchange. -/
theorem send_ping_success_invariants_witness :
    ((∀ b ∈ success_env.buffer, b < 256) ∧
     (send_ping success_env 777 5).success = true) ∧
    ((send_ping success_env 777 5).bytes_received
       = success_env.received
         - (get_ip_header_length success_env.buffer : Int) - 8 ∧
     0 ≤ (send_ping success_env 777 5).bytes_received ∧
     0 ≤ (send_ping success_env 777 5).ttl ∧
     (send_ping success_env 777 5).ttl ≤ 255 ∧
     (send_ping success_env 777 5).sequence = 5 ∧
     (send_ping success_env 777 5).identifier = 777) :=
  ⟨⟨by decide, by decide⟩,
    send_ping_success_invariants success_env 777 5 (by decide) (by decide)⟩

end Icmp
